import Mathlib

/-!
Verification of the semantic-translator script (`open-ai.py`).

The script wraps a remote chat-completion service in two functions,
`semantic_translate` and `validate_semantics`, and drives them from a
form trigger with guard clauses.  We embed the script shallowly: the
remote service is an oracle mapping the history of requests issued so
far and the current request to either a reply text or an error string
(the string form of the raised exception); every embedded operation
returns its result together with the updated request log, so that
claims about how many calls are issued and with which fields are
directly statable.
-/

/-- A role-tagged chat message, as in the `messages` lists of the script. -/
structure Message where
  role : String
  content : String
deriving DecidableEq, Repr

/-- One outbound chat-completion request: model identifier, message
sequence, and the optional decoding-randomness (temperature) parameter. -/
structure ChatRequest where
  model : String
  messages : List Message
  temperature : Option ℚ
deriving DecidableEq, Repr

/-- The remote service: given the history of requests already issued and
the current request, reply with generated text (`Except.ok`) or fail with
an error whose string form is the payload (`Except.error`). -/
def Oracle : Type := List ChatRequest → ChatRequest → Except String String

/-- Substring test on character lists: does `needle` occur contiguously
inside the second list? Embeds Python's `in` on strings. -/
def containsSub (needle : List Char) : List Char → Bool
  | [] => needle.isEmpty
  | c :: t => needle.isPrefixOf (c :: t) || containsSub needle t

/-- The whitespace characters removed by Python's `str.strip()`
(the ASCII ones; the script's data never carries the exotic ones). -/
def pyWhitespace (c : Char) : Bool :=
  c = ' ' ∨ c = '\t' ∨ c = '\n' ∨ c = '\r' ∨ c = '\x0b' ∨ c = '\x0c'

/-- Drop the longest leading run of characters satisfying `p`. -/
def dropLeading (p : Char → Bool) : List Char → List Char
  | [] => []
  | c :: t => if p c then dropLeading p t else c :: t

/-- Remove leading and trailing whitespace from a character list. -/
def stripChars (cs : List Char) : List Char :=
  dropLeading pyWhitespace ((dropLeading pyWhitespace cs.reverse).reverse)

/-- Embeds Python's `str.strip()`. -/
def pyStrip (s : String) : String := ⟨stripChars s.data⟩

/-- Embeds Python's `str.lower()` (character-wise lowering). -/
def pyLower (s : String) : String := ⟨s.data.map Char.toLower⟩

/-- Embeds `"temperature" in str(e).lower()` from the two `except` blocks. -/
def isTemperatureError (e : String) : Bool :=
  containsSub "temperature".data (pyLower e).data

/-- The system message of `semantic_translate`. -/
def translateSystemMsg : Message :=
  ⟨"system", "You are a semantic translator preserving meaning and context."⟩

/-- The f-string prompt built by `semantic_translate`. -/
def translatePrompt (text source_lang target_lang : String) : String :=
  "You are a professional translator. Translate the following text from "
    ++ source_lang ++ " to " ++ target_lang ++ ".\n"
    ++ "Ensure the translation is SEMANTIC — preserving meaning, tone, and emotion, not just words.\n"
    ++ "\nText:\n" ++ text ++ "\n"

/-- The message sequence sent by `semantic_translate`. -/
def translateMessages (text source_lang target_lang : String) : List Message :=
  [translateSystemMsg, ⟨"user", translatePrompt text source_lang target_lang⟩]

/-- A translation request with the given temperature field. -/
def translateReq (text source_lang target_lang model : String) (t : Option ℚ) : ChatRequest :=
  ⟨model, translateMessages text source_lang target_lang, t⟩

/-- Embeds `semantic_translate`: first call with `temperature=0.3`; on an
exception whose lowered text mentions "temperature", one retry without the
parameter; any other exception re-raised.  Returns the result (the reply
stripped of surrounding whitespace) and the request log. -/
def semantic_translate (oracle : Oracle) (log : List ChatRequest)
    (text source_lang target_lang model : String) :
    Except String String × List ChatRequest :=
  match oracle log (translateReq text source_lang target_lang model (some (3/10))) with
  | .ok response =>
      (.ok (pyStrip response),
        log ++ [translateReq text source_lang target_lang model (some (3/10))])
  | .error e =>
      if isTemperatureError e then
        match oracle (log ++ [translateReq text source_lang target_lang model (some (3/10))])
            (translateReq text source_lang target_lang model none) with
        | .ok response =>
            (.ok (pyStrip response),
              log ++ [translateReq text source_lang target_lang model (some (3/10)),
                      translateReq text source_lang target_lang model none])
        | .error e2 =>
            (.error e2,
              log ++ [translateReq text source_lang target_lang model (some (3/10)),
                      translateReq text source_lang target_lang model none])
      else
        (.error e, log ++ [translateReq text source_lang target_lang model (some (3/10))])

/-- A value of Python's `float(...)` applied to a string: a finite rational
(the exact mathematical value of the literal), an infinity, or NaN. -/
inductive PyVal where
  | finite (q : ℚ)
  | inf
  | negInf
  | nan
deriving DecidableEq, Repr

/-- Consume a run of decimal digits, allowing a single underscore strictly
between two digits (as Python numeric literals do): an underscore is
consumed only when a digit of this group precedes it (`0 < n`) and a digit
follows it.  Returns the accumulated value, the number of digits consumed,
and the rest. -/
def parseDigitsAux (acc n : Nat) : List Char → Nat × Nat × List Char
  | [] => (acc, n, [])
  | c :: rest =>
      if c.isDigit then parseDigitsAux (acc * 10 + (c.toNat - 48)) (n + 1) rest
      else if c = '_' ∧ 0 < n then
        match rest with
        | d :: rest2 =>
            if d.isDigit then parseDigitsAux (acc * 10 + (d.toNat - 48)) (n + 1) rest2
            else (acc, n, c :: rest)
        | [] => (acc, n, [c])
      else (acc, n, c :: rest)

/-- Read an optional single leading sign. -/
def parseSign : List Char → Int × List Char
  | '+' :: r => (1, r)
  | '-' :: r => (-1, r)
  | cs => (1, cs)

/-- The exact value of a parsed decimal literal:
sign × (intpart + fracpart / 10^fracdigits) × 10^exponent. -/
def mkVal (sgn : Int) (ip fp nf : Nat) (ex : Int) : ℚ :=
  (sgn : ℚ) * ((ip : ℚ) + (fp : ℚ) / (10 : ℚ) ^ nf) * (10 : ℚ) ^ ex

/-- Recognise the special spellings `inf`, `infinity`, `nan`
(case-insensitive, sign already consumed). -/
def parseSpecial (sgn : Int) (cs : List Char) : Option PyVal :=
  let l := cs.map Char.toLower
  if l = "inf".data ∨ l = "infinity".data then
    some (if sgn = 1 then .inf else .negInf)
  else if l = "nan".data then some .nan
  else none

/-- Parse a whole character list as a Python float literal. -/
def pyFloatCore (cs : List Char) : Option PyVal :=
  let s1 := parseSign cs
  match parseSpecial s1.1 s1.2 with
  | some v => some v
  | none =>
      let ir := parseDigitsAux 0 0 s1.2
      let fr := match ir.2.2 with
        | '.' :: r => parseDigitsAux 0 0 r
        | _ => (0, 0, ir.2.2)
      if ir.2.1 + fr.2.1 = 0 then none
      else
        match fr.2.2 with
        | [] => some (.finite (mkVal s1.1 ir.1 fr.1 fr.2.1 0))
        | c :: r =>
            if c = 'e' ∨ c = 'E' then
              let es := parseSign r
              let er := parseDigitsAux 0 0 es.2
              if er.2.1 = 0 ∨ er.2.2 ≠ [] then none
              else some (.finite (mkVal s1.1 ir.1 fr.1 fr.2.1 (es.1 * (er.1 : Int))))
            else none

/-- Embeds `float(s)` on a string: surrounding whitespace ignored, then the
literal grammar; `none` is Python's `ValueError`. -/
def pyFloat (s : String) : Option PyVal :=
  pyFloatCore (pyStrip s).data

/-- The f-string prompt built by `validate_semantics`. -/
def validatePrompt (original translated source_lang target_lang : String) : String :=
  "\nCompare the semantic meaning of these two sentences.\nOriginal ("
    ++ source_lang ++ "): " ++ original ++ "\nTranslated ("
    ++ target_lang ++ "): " ++ translated
    ++ "\n\nRate similarity from 0 (completely different) to 1 (identical in meaning).\nRespond only with the number.\n"

/-- The message sequence sent by `validate_semantics` (a single user message). -/
def validateMessages (original translated source_lang target_lang : String) : List Message :=
  [⟨"user", validatePrompt original translated source_lang target_lang⟩]

/-- A validation request with the given temperature field. -/
def validateReq (original translated source_lang target_lang model : String)
    (t : Option ℚ) : ChatRequest :=
  ⟨model, validateMessages original translated source_lang target_lang, t⟩

/-- Embeds `validate_semantics`: first call with `temperature=0`; same
temperature fallback as the translator; the reply is stripped and parsed
with `float`, a parse failure yielding `none` instead of an error. -/
def validate_semantics (oracle : Oracle) (log : List ChatRequest)
    (original translated source_lang target_lang model : String) :
    Except String (Option PyVal) × List ChatRequest :=
  match oracle log (validateReq original translated source_lang target_lang model (some 0)) with
  | .ok response =>
      (.ok (pyFloat (pyStrip response)),
        log ++ [validateReq original translated source_lang target_lang model (some 0)])
  | .error e =>
      if isTemperatureError e then
        match oracle
            (log ++ [validateReq original translated source_lang target_lang model (some 0)])
            (validateReq original translated source_lang target_lang model none) with
        | .ok response =>
            (.ok (pyFloat (pyStrip response)),
              log ++ [validateReq original translated source_lang target_lang model (some 0),
                      validateReq original translated source_lang target_lang model none])
        | .error e2 =>
            (.error e2,
              log ++ [validateReq original translated source_lang target_lang model (some 0),
                      validateReq original translated source_lang target_lang model none])
      else
        (.error e,
          log ++ [validateReq original translated source_lang target_lang model (some 0)])

/-- One user-visible output of the trigger flow. -/
inductive UIEvent where
  | errorMsg (s : String)
  | warningMsg (s : String)
  | subheaderMsg (s : String)
  | writeText (s : String)
  | metricScore (v : PyVal)
  | infoMsg (s : String)
deriving DecidableEq, Repr

/-- Embeds the `if st.button("Translate")` block: the three guard clauses,
then the translator, display of its result, the validator, and the score
or the could-not-parse notice; any exception from either remote call is
caught and shown as a single error message.  Returns the displayed events
in order and the request log. -/
def trigger (oracle : Oracle) (text_input source_lang target_lang selected_model : String) :
    List UIEvent × List ChatRequest :=
  if pyStrip text_input = "" then
    ([.errorMsg "Please enter the text to translate."], [])
  else if pyStrip source_lang = "" ∨ pyStrip target_lang = "" then
    ([.errorMsg "Please provide both source and target languages."], [])
  else if pyLower (pyStrip source_lang) = pyLower (pyStrip target_lang) then
    ([.warningMsg "Source and target languages are the same."], [])
  else
    match semantic_translate oracle [] text_input source_lang target_lang selected_model with
    | (.error e, lg) =>
        ([.errorMsg ("Error calling model `" ++ selected_model ++ "`: " ++ e)], lg)
    | (.ok translated, lg) =>
        match validate_semantics oracle lg text_input translated source_lang target_lang
            selected_model with
        | (.error e, lg2) =>
            ([.subheaderMsg "Translated Text", .writeText translated,
              .errorMsg ("Error calling model `" ++ selected_model ++ "`: " ++ e)], lg2)
        | (.ok (some score), lg2) =>
            ([.subheaderMsg "Translated Text", .writeText translated,
              .metricScore score], lg2)
        | (.ok none, lg2) =>
            ([.subheaderMsg "Translated Text", .writeText translated,
              .infoMsg "Could not parse a numeric similarity score from the model response."], lg2)

/-- The authenticated remote client; constructed once at startup. -/
structure Client where
  api_key : String
deriving DecidableEq, Repr

/-- The startup error shown when no key is available. -/
def missingKeyMsg : String :=
  "Missing API key. Please add `OPENAI_API_KEY` in Streamlit Secrets."

/-- Embeds lines 16–24: read `OPENAI_API_KEY` from the secrets channel; on a
missing or falsy (empty) value, report the error and stop before anything
else runs; otherwise construct the client.  No request is issued here,
hence the always-empty log component. -/
def startup (secrets : String → Option String) : Except String Client × List ChatRequest :=
  match secrets "OPENAI_API_KEY" with
  | none => (.error missingKeyMsg, [])
  | some k => if k = "" then (.error missingKeyMsg, []) else (.ok ⟨k⟩, [])

/-- Test oracle: rejects any request that sets the temperature parameter,
answers a fixed text otherwise. -/
def tempRejectOracle : Oracle := fun _ req =>
  match req.temperature with
  | some _ => .error "Unsupported parameter: temperature is not supported with this model."
  | none => .ok "  Bonjour tout le monde  "

/-- Test oracle: always fails with an error unrelated to the temperature
parameter. -/
def serverErrorOracle : Oracle := fun _ _ =>
  .error "Error code: 500 - The server had an error while processing your request."

/-- Test oracle: always succeeds with a fixed untrimmed reply. -/
def plainOkOracle : Oracle := fun _ _ => .ok "  Bonjour  "

/-- Test oracle: always replies with a parseable similarity score. -/
def scoreOracle : Oracle := fun _ _ => .ok " 0.87 "

/-- Test oracle: always replies with an out-of-range similarity score. -/
def bigScoreOracle : Oracle := fun _ _ => .ok "1.4"

/-- Test oracle: always replies with a non-numeric text. -/
def wordOracle : Oracle := fun _ _ => .ok "high"


theorem translate_first_ok_eq (oracle : Oracle) (text sl tl m r : String)
    (h1 : oracle [] (translateReq text sl tl m (some (3/10))) = .ok r) :
    semantic_translate oracle [] text sl tl m =
      (.ok (pyStrip r), [translateReq text sl tl m (some (3/10))]) := by
  unfold semantic_translate
  rw [h1]
  simp

theorem translate_retry_ok_eq (oracle : Oracle) (text sl tl m e r : String)
    (h1 : oracle [] (translateReq text sl tl m (some (3/10))) = .error e)
    (h2 : isTemperatureError e = true)
    (h3 : oracle [translateReq text sl tl m (some (3/10))]
        (translateReq text sl tl m none) = .ok r) :
    semantic_translate oracle [] text sl tl m =
      (.ok (pyStrip r),
       [translateReq text sl tl m (some (3/10)), translateReq text sl tl m none]) := by
  unfold semantic_translate
  rw [h1]
  simp only [h2, if_true, List.nil_append]
  rw [h3]

theorem translate_retry_log_eq (oracle : Oracle) (text sl tl m e : String)
    (h1 : oracle [] (translateReq text sl tl m (some (3/10))) = .error e)
    (h2 : isTemperatureError e = true) :
    (semantic_translate oracle [] text sl tl m).2 =
      [translateReq text sl tl m (some (3/10)), translateReq text sl tl m none] := by
  unfold semantic_translate
  rw [h1]
  simp only [h2, if_true]
  cases h3 : oracle [translateReq text sl tl m (some (3/10))]
      (translateReq text sl tl m none) <;> simp [h3]

theorem translate_error_eq (oracle : Oracle) (text sl tl m e : String)
    (h1 : oracle [] (translateReq text sl tl m (some (3/10))) = .error e)
    (h2 : isTemperatureError e = false) :
    semantic_translate oracle [] text sl tl m =
      (.error e, [translateReq text sl tl m (some (3/10))]) := by
  unfold semantic_translate
  rw [h1]
  simp [h2]

theorem validate_first_ok_eq (oracle : Oracle) (o tr sl tl m r : String)
    (h1 : oracle [] (validateReq o tr sl tl m (some 0)) = .ok r) :
    validate_semantics oracle [] o tr sl tl m =
      (.ok (pyFloat (pyStrip r)), [validateReq o tr sl tl m (some 0)]) := by
  unfold validate_semantics
  rw [h1]
  simp

theorem validate_retry_log_eq (oracle : Oracle) (o tr sl tl m e : String)
    (h1 : oracle [] (validateReq o tr sl tl m (some 0)) = .error e)
    (h2 : isTemperatureError e = true) :
    (validate_semantics oracle [] o tr sl tl m).2 =
      [validateReq o tr sl tl m (some 0), validateReq o tr sl tl m none] := by
  unfold validate_semantics
  rw [h1]
  simp only [h2, if_true]
  cases h3 : oracle [validateReq o tr sl tl m (some 0)]
      (validateReq o tr sl tl m none) <;> simp [h3]

theorem validate_error_eq (oracle : Oracle) (o tr sl tl m e : String)
    (h1 : oracle [] (validateReq o tr sl tl m (some 0)) = .error e)
    (h2 : isTemperatureError e = false) :
    validate_semantics oracle [] o tr sl tl m =
      (.error e, [validateReq o tr sl tl m (some 0)]) := by
  unfold validate_semantics
  rw [h1]
  simp [h2]

theorem semantic_translate_log_shape (oracle : Oracle) (text sl tl m : String) :
    (semantic_translate oracle [] text sl tl m).2 =
        [translateReq text sl tl m (some (3/10))] ∨
    (semantic_translate oracle [] text sl tl m).2 =
        [translateReq text sl tl m (some (3/10)), translateReq text sl tl m none] := by
  cases h1 : oracle [] (translateReq text sl tl m (some (3/10))) with
  | ok r => left; rw [translate_first_ok_eq oracle text sl tl m r h1]
  | error e =>
      by_cases h : isTemperatureError e = true
      · right; exact translate_retry_log_eq oracle text sl tl m e h1 h
      · left
        rw [translate_error_eq oracle text sl tl m e h1 (by simpa using h)]

/-- C1: in both `semantic_translate` and `validate_semantics`, a first-call
failure recognised as a temperature-parameter rejection triggers exactly one
retry without the parameter, while any other failure propagates unchanged
with no retry. -/
theorem temperature_fallback_policy :
    (∀ (oracle : Oracle) (text sl tl m e : String),
        oracle [] (translateReq text sl tl m (some (3/10))) = .error e →
        isTemperatureError e = true →
        (semantic_translate oracle [] text sl tl m).2 =
          [translateReq text sl tl m (some (3/10)), translateReq text sl tl m none]) ∧
    (∀ (oracle : Oracle) (text sl tl m e : String),
        oracle [] (translateReq text sl tl m (some (3/10))) = .error e →
        isTemperatureError e = false →
        semantic_translate oracle [] text sl tl m =
          (.error e, [translateReq text sl tl m (some (3/10))])) ∧
    (∀ (oracle : Oracle) (o tr sl tl m e : String),
        oracle [] (validateReq o tr sl tl m (some 0)) = .error e →
        isTemperatureError e = true →
        (validate_semantics oracle [] o tr sl tl m).2 =
          [validateReq o tr sl tl m (some 0), validateReq o tr sl tl m none]) ∧
    (∀ (oracle : Oracle) (o tr sl tl m e : String),
        oracle [] (validateReq o tr sl tl m (some 0)) = .error e →
        isTemperatureError e = false →
        validate_semantics oracle [] o tr sl tl m =
          (.error e, [validateReq o tr sl tl m (some 0)])) :=
  ⟨fun oracle text sl tl m e h1 h2 => translate_retry_log_eq oracle text sl tl m e h1 h2,
   fun oracle text sl tl m e h1 h2 => translate_error_eq oracle text sl tl m e h1 h2,
   fun oracle o tr sl tl m e h1 h2 => validate_retry_log_eq oracle o tr sl tl m e h1 h2,
   fun oracle o tr sl tl m e h1 h2 => validate_error_eq oracle o tr sl tl m e h1 h2⟩

theorem temperature_fallback_policy_witness :
    ((semantic_translate tempRejectOracle [] "Hi" "English" "French" "gpt-4.1").2 =
      [translateReq "Hi" "English" "French" "gpt-4.1" (some (3/10)),
       translateReq "Hi" "English" "French" "gpt-4.1" none]) ∧
    validate_semantics serverErrorOracle [] "Hi" "Salut" "English" "French" "gpt-4.1" =
      (.error "Error code: 500 - The server had an error while processing your request.",
       [validateReq "Hi" "Salut" "English" "French" "gpt-4.1" (some 0)]) :=
  ⟨temperature_fallback_policy.1 tempRejectOracle "Hi" "English" "French" "gpt-4.1"
      "Unsupported parameter: temperature is not supported with this model." rfl (by decide),
   temperature_fallback_policy.2.2.2 serverErrorOracle "Hi" "Salut" "English" "French" "gpt-4.1"
      "Error code: 500 - The server had an error while processing your request." rfl (by decide)⟩

/-- C6: on a successful remote call (first attempt or fallback retry),
`semantic_translate` returns exactly the generated text with surrounding
whitespace removed — no other post-processing of any kind. -/
theorem translate_output_trimmed :
    (∀ (oracle : Oracle) (text sl tl m r : String),
        oracle [] (translateReq text sl tl m (some (3/10))) = .ok r →
        semantic_translate oracle [] text sl tl m =
          (.ok (pyStrip r), [translateReq text sl tl m (some (3/10))])) ∧
    (∀ (oracle : Oracle) (text sl tl m e r : String),
        oracle [] (translateReq text sl tl m (some (3/10))) = .error e →
        isTemperatureError e = true →
        oracle [translateReq text sl tl m (some (3/10))]
            (translateReq text sl tl m none) = .ok r →
        semantic_translate oracle [] text sl tl m =
          (.ok (pyStrip r),
           [translateReq text sl tl m (some (3/10)), translateReq text sl tl m none])) :=
  ⟨fun oracle text sl tl m r h1 => translate_first_ok_eq oracle text sl tl m r h1,
   fun oracle text sl tl m e r h1 h2 h3 => translate_retry_ok_eq oracle text sl tl m e r h1 h2 h3⟩

theorem translate_output_trimmed_witness :
    semantic_translate plainOkOracle [] "Hi" "English" "French" "gpt-4.1" =
      (.ok "Bonjour", [translateReq "Hi" "English" "French" "gpt-4.1" (some (3/10))]) := by
  have h := translate_output_trimmed.1 plainOkOracle "Hi" "English" "French" "gpt-4.1"
    "  Bonjour  " rfl
  rw [h]
  rfl

/-- C8: a temperature rejection on the first attempt followed by a
successful retry without the parameter yields exactly the retry output
(trimmed), with exactly two remote calls in total. -/
theorem retry_success_two_calls (oracle : Oracle) (text sl tl m e r : String)
    (h1 : oracle [] (translateReq text sl tl m (some (3/10))) = .error e)
    (h2 : isTemperatureError e = true)
    (h3 : oracle [translateReq text sl tl m (some (3/10))]
        (translateReq text sl tl m none) = .ok r) :
    semantic_translate oracle [] text sl tl m =
      (.ok (pyStrip r),
       [translateReq text sl tl m (some (3/10)), translateReq text sl tl m none]) ∧
    (semantic_translate oracle [] text sl tl m).2.length = 2 := by
  have h := translate_retry_ok_eq oracle text sl tl m e r h1 h2 h3
  exact ⟨h, by rw [h]; rfl⟩

theorem retry_success_two_calls_witness :
    semantic_translate tempRejectOracle [] "Hi" "English" "French" "gpt-4.1" =
      (.ok "Bonjour tout le monde",
       [translateReq "Hi" "English" "French" "gpt-4.1" (some (3/10)),
        translateReq "Hi" "English" "French" "gpt-4.1" none]) ∧
    (semantic_translate tempRejectOracle [] "Hi" "English" "French" "gpt-4.1").2.length = 2 := by
  have h := retry_success_two_calls tempRejectOracle "Hi" "English" "French" "gpt-4.1"
    "Unsupported parameter: temperature is not supported with this model."
    "  Bonjour tout le monde  " rfl (by decide) rfl
  refine ⟨?_, h.2⟩
  rw [h.1]
  rfl

/-- C10: in both functions, the fallback retry request matches the first
request in model identifier and in the full message sequence, differing
only in the omitted temperature field. -/
theorem retry_request_identical_except_temperature :
    (∀ (oracle : Oracle) (text sl tl m e : String),
        oracle [] (translateReq text sl tl m (some (3/10))) = .error e →
        isTemperatureError e = true →
        (semantic_translate oracle [] text sl tl m).2 =
          [translateReq text sl tl m (some (3/10)), translateReq text sl tl m none] ∧
        (translateReq text sl tl m none).model =
          (translateReq text sl tl m (some (3/10))).model ∧
        (translateReq text sl tl m none).messages =
          (translateReq text sl tl m (some (3/10))).messages ∧
        (translateReq text sl tl m (some (3/10))).temperature = some (3/10) ∧
        (translateReq text sl tl m none).temperature = none) ∧
    (∀ (oracle : Oracle) (o tr sl tl m e : String),
        oracle [] (validateReq o tr sl tl m (some 0)) = .error e →
        isTemperatureError e = true →
        (validate_semantics oracle [] o tr sl tl m).2 =
          [validateReq o tr sl tl m (some 0), validateReq o tr sl tl m none] ∧
        (validateReq o tr sl tl m none).model = (validateReq o tr sl tl m (some 0)).model ∧
        (validateReq o tr sl tl m none).messages =
          (validateReq o tr sl tl m (some 0)).messages ∧
        (validateReq o tr sl tl m (some 0)).temperature = some 0 ∧
        (validateReq o tr sl tl m none).temperature = none) :=
  ⟨fun oracle text sl tl m e h1 h2 =>
      ⟨translate_retry_log_eq oracle text sl tl m e h1 h2, rfl, rfl, rfl, rfl⟩,
   fun oracle o tr sl tl m e h1 h2 =>
      ⟨validate_retry_log_eq oracle o tr sl tl m e h1 h2, rfl, rfl, rfl, rfl⟩⟩

theorem retry_request_identical_except_temperature_witness :
    (validate_semantics tempRejectOracle [] "Hi" "Salut" "English" "French" "gpt-4.1").2 =
      [validateReq "Hi" "Salut" "English" "French" "gpt-4.1" (some 0),
       validateReq "Hi" "Salut" "English" "French" "gpt-4.1" none] ∧
    (validateReq "Hi" "Salut" "English" "French" "gpt-4.1" none).messages =
      (validateReq "Hi" "Salut" "English" "French" "gpt-4.1" (some 0)).messages :=
  have h := retry_request_identical_except_temperature.2 tempRejectOracle
    "Hi" "Salut" "English" "French" "gpt-4.1"
    "Unsupported parameter: temperature is not supported with this model." rfl (by decide)
  ⟨h.1, h.2.2.1⟩

/-- C2: when the remote reply arrives, the validator returns exactly the
result of parsing the stripped reply as a Python float — the exact parsed
value for numeric replies, `none` (never an error) for non-numeric ones;
the listed concrete replies behave as the spec's examples state. -/
theorem validate_parses_float_or_none :
    (∀ (oracle : Oracle) (o tr sl tl m r : String),
        oracle [] (validateReq o tr sl tl m (some 0)) = .ok r →
        validate_semantics oracle [] o tr sl tl m =
          (.ok (pyFloat (pyStrip r)), [validateReq o tr sl tl m (some 0)])) ∧
    pyFloat "0.87" = some (.finite (87/100)) ∧
    pyFloat " 1 " = some (.finite 1) ∧
    pyFloat "0" = some (.finite 0) ∧
    pyFloat "high" = none ∧
    pyFloat "" = none ∧
    pyFloat "0.8 approx" = none ∧
    pyFloat "_5" = none ∧
    pyFloat "1_0" = some (.finite 10) := by
  refine ⟨fun oracle o tr sl tl m r h1 => validate_first_ok_eq oracle o tr sl tl m r h1,
    ?_, ?_, ?_, by decide, by decide, by decide, by decide, ?_⟩
  · rw [show pyFloat "0.87" = some (.finite (mkVal 1 0 87 2 0)) from rfl]
    norm_num [mkVal]
  · rw [show pyFloat " 1 " = some (.finite (mkVal 1 1 0 0 0)) from rfl]
    norm_num [mkVal]
  · rw [show pyFloat "0" = some (.finite (mkVal 1 0 0 0 0)) from rfl]
    norm_num [mkVal]
  · rw [show pyFloat "1_0" = some (.finite (mkVal 1 10 0 0 0)) from rfl]
    norm_num [mkVal]

theorem validate_parses_float_or_none_witness :
    validate_semantics scoreOracle [] "a" "b" "English" "French" "gpt-4.1" =
      (.ok (some (.finite (87/100))),
       [validateReq "a" "b" "English" "French" "gpt-4.1" (some 0)]) := by
  have h := validate_parses_float_or_none.1 scoreOracle "a" "b" "English" "French" "gpt-4.1"
    " 0.87 " rfl
  rw [h]
  rw [show pyFloat (pyStrip " 0.87 ") = some (.finite (mkVal 1 0 87 2 0)) from rfl]
  norm_num [mkVal]

/-- C7: no range check is applied to the parsed score: any reply parsing to
a finite value, inside `[0,1]` or not, is returned unchanged; `"1.4"`
parses to `7/5 > 1` and passes through. -/
theorem validate_no_range_check :
    (∀ (oracle : Oracle) (o tr sl tl m r : String) (q : ℚ),
        oracle [] (validateReq o tr sl tl m (some 0)) = .ok r →
        pyFloat (pyStrip r) = some (.finite q) →
        (validate_semantics oracle [] o tr sl tl m).1 = .ok (some (.finite q))) ∧
    pyFloat "1.4" = some (.finite (7/5)) := by
  refine ⟨fun oracle o tr sl tl m r q h1 h2 => by
      rw [validate_first_ok_eq oracle o tr sl tl m r h1]
      simp [h2], ?_⟩
  rw [show pyFloat "1.4" = some (.finite (mkVal 1 1 4 1 0)) from rfl]
  norm_num [mkVal]

theorem validate_no_range_check_witness :
    (validate_semantics bigScoreOracle [] "a" "b" "English" "French" "gpt-4.1").1 =
      .ok (some (.finite (7/5))) :=
  validate_no_range_check.1 bigScoreOracle "a" "b" "English" "French" "gpt-4.1" "1.4" (7/5)
    rfl (by
      rw [show pyFloat (pyStrip "1.4") = some (.finite (mkVal 1 1 4 1 0)) from rfl]
      norm_num [mkVal])

theorem same_language_notice_counterexample :
    ((trigger serverErrorOracle "" "English" "english" "gpt-4.1").1 =
      [.errorMsg "Please enter the text to translate."]) ∧
    UIEvent.warningMsg "Source and target languages are the same." ∉
      (trigger serverErrorOracle "" "English" "english" "gpt-4.1").1 ∧
    (trigger serverErrorOracle "" "English" "english" "gpt-4.1").2 = [] := by
  decide

/-- C3 (amended): under the earlier guards — non-blank text and non-blank
language labels — equal (case-insensitive, trimmed) source and target
labels make the trigger show the same-language notice and issue no remote
call; when the text or a label is blank, the corresponding input error is
shown first instead, still with no remote call. -/
theorem same_language_notice (oracle : Oracle) (text sl tl m : String)
    (ht : pyStrip text ≠ "") (hs : pyStrip sl ≠ "") (htl : pyStrip tl ≠ "")
    (heq : pyLower (pyStrip sl) = pyLower (pyStrip tl)) :
    trigger oracle text sl tl m =
      ([.warningMsg "Source and target languages are the same."], []) := by
  unfold trigger
  rw [if_neg ht, if_neg (not_or.mpr ⟨hs, htl⟩), if_pos heq]

theorem same_language_notice_witness :
    trigger serverErrorOracle "Hello" "English" "english" "gpt-4.1" =
      ([.warningMsg "Source and target languages are the same."], []) :=
  same_language_notice serverErrorOracle "Hello" "English" "english" "gpt-4.1"
    (by decide) (by decide) (by decide) (by decide)

/-- C4: a blank text or a blank language label makes the trigger report the
corresponding input error and issue no remote call at all. -/
theorem input_error_guard (oracle : Oracle) (text sl tl m : String)
    (h : pyStrip text = "" ∨ pyStrip sl = "" ∨ pyStrip tl = "") :
    (trigger oracle text sl tl m).2 = [] ∧
    ((trigger oracle text sl tl m).1 =
        [.errorMsg "Please enter the text to translate."] ∨
     (trigger oracle text sl tl m).1 =
        [.errorMsg "Please provide both source and target languages."]) := by
  unfold trigger
  by_cases h1 : pyStrip text = ""
  · rw [if_pos h1]
    exact ⟨rfl, .inl rfl⟩
  · have h2 : pyStrip sl = "" ∨ pyStrip tl = "" := by tauto
    rw [if_neg h1, if_pos h2]
    exact ⟨rfl, .inr rfl⟩

theorem input_error_guard_witness :
    (trigger serverErrorOracle "   " "English" "French" "gpt-4.1").2 = [] ∧
    ((trigger serverErrorOracle "   " "English" "French" "gpt-4.1").1 =
        [.errorMsg "Please enter the text to translate."] ∨
     (trigger serverErrorOracle "   " "English" "French" "gpt-4.1").1 =
        [.errorMsg "Please provide both source and target languages."]) :=
  input_error_guard serverErrorOracle "   " "English" "French" "gpt-4.1" (Or.inl (by decide))

/-- C5: when the translator call fails (the guards having passed), the
trigger shows a single error message that carries the raised error text
verbatim, the validator is never invoked — every logged request is a
translator request — and nothing else is displayed. -/
theorem translator_failure_aborts (oracle : Oracle) (text sl tl m e : String)
    (lg : List ChatRequest)
    (ht : pyStrip text ≠ "") (hs : pyStrip sl ≠ "") (htl : pyStrip tl ≠ "")
    (hne : pyLower (pyStrip sl) ≠ pyLower (pyStrip tl))
    (hfail : semantic_translate oracle [] text sl tl m = (.error e, lg)) :
    trigger oracle text sl tl m =
      ([.errorMsg ("Error calling model `" ++ m ++ "`: " ++ e)], lg) ∧
    ∀ req ∈ lg, req.messages = translateMessages text sl tl := by
  constructor
  · unfold trigger
    rw [if_neg ht, if_neg (not_or.mpr ⟨hs, htl⟩), if_neg hne, hfail]
  · intro req hreq
    have hsh := semantic_translate_log_shape oracle text sl tl m
    rw [hfail] at hsh
    simp only at hsh
    rcases hsh with hsh | hsh <;> subst hsh <;> simp at hreq
    · subst hreq
      rfl
    · rcases hreq with hreq | hreq <;> subst hreq <;> rfl

theorem translator_failure_aborts_witness :
    trigger serverErrorOracle "Hello" "English" "French" "gpt-4.1" =
      ([.errorMsg ("Error calling model `" ++ "gpt-4.1" ++ "`: "
          ++ "Error code: 500 - The server had an error while processing your request.")],
       [translateReq "Hello" "English" "French" "gpt-4.1" (some (3/10))]) ∧
    ∀ req ∈ [translateReq "Hello" "English" "French" "gpt-4.1" (some (3/10))],
      req.messages = translateMessages "Hello" "English" "French" :=
  translator_failure_aborts serverErrorOracle "Hello" "English" "French" "gpt-4.1"
    "Error code: 500 - The server had an error while processing your request."
    [translateReq "Hello" "English" "French" "gpt-4.1" (some (3/10))]
    (by decide) (by decide) (by decide) (by decide)
    (translate_error_eq serverErrorOracle "Hello" "English" "French" "gpt-4.1"
      "Error code: 500 - The server had an error while processing your request."
      rfl (by decide))

/-- C9: startup issues no remote request; it refuses to start exactly when
the secrets channel yields no key or an empty one, with a message naming
the channel checked (`OPENAI_API_KEY` in Streamlit Secrets), and the client
is constructed exactly for a non-empty key, holding that key. -/
theorem api_key_required_at_startup :
    (∀ secrets : String → Option String, (startup secrets).2 = []) ∧
    (∀ secrets : String → Option String,
        secrets "OPENAI_API_KEY" = none ∨ secrets "OPENAI_API_KEY" = some "" →
        (startup secrets).1 = .error missingKeyMsg) ∧
    (∀ (secrets : String → Option String) (k : String),
        secrets "OPENAI_API_KEY" = some k → k ≠ "" →
        (startup secrets).1 = .ok ⟨k⟩) ∧
    (∀ (secrets : String → Option String) (c : Client),
        (startup secrets).1 = .ok c →
        secrets "OPENAI_API_KEY" = some c.api_key ∧ c.api_key ≠ "") ∧
    containsSub "Streamlit Secrets".data missingKeyMsg.data = true ∧
    containsSub "OPENAI_API_KEY".data missingKeyMsg.data = true := by
  refine ⟨?_, ?_, ?_, ?_, by decide, by decide⟩
  · intro secrets
    unfold startup
    cases h : secrets "OPENAI_API_KEY" with
    | none => rfl
    | some k => by_cases hk : k = "" <;> simp [hk]
  · intro secrets h
    rcases h with h | h <;> simp [startup, h]
  · intro secrets k h1 h2
    simp [startup, h1, h2]
  · intro secrets c h
    cases hh : secrets "OPENAI_API_KEY" with
    | none => simp [startup, hh] at h
    | some k =>
        by_cases hk : k = ""
        · simp [startup, hh, hk] at h
        · simp [startup, hh, hk] at h
          subst h
          simp [hh, hk]

theorem api_key_required_at_startup_witness :
    (startup fun _ => none).1 = .error missingKeyMsg ∧
    (startup fun _ => some "sk-test-key").1 = .ok ⟨"sk-test-key"⟩ :=
  ⟨api_key_required_at_startup.2.1 (fun _ => none) (Or.inl rfl),
   api_key_required_at_startup.2.2.1 (fun _ => some "sk-test-key") "sk-test-key" rfl
     (by decide)⟩
